import Mathlib

/-!
Verification development for the `csscolor` crate: a shallow embedding of
the color data model (`src/color.rs`, `src/model/*.rs`) and of the
conversion engine (`src/convert.rs`), with theorems settling the frozen
claims about the conversion behaviour.

Modelling choices, applied uniformly:

* An `f32` is modelled as `F := Option ℚ`, where `none` stands for the
  NaN sentinel and `some q` for a finite value of exact magnitude `q`.
  Rounding is not modelled (numeric literals are taken at their exact
  decimal value), the claims under study are about branch structure,
  flag propagation and exact formula shape, never about rounding error.
  Signed zero and infinities are not modelled either: no claim path
  compares against `-0.0`, and the model maps a division by zero to the
  NaN element (the only divisions reachable in the claims divide by
  nonzero constants or guarded nonzero values).
* Arithmetic on `F` propagates NaN exactly as IEEE (hence Rust f32)
  arithmetic does: any operation with a NaN operand yields NaN, every
  ordered comparison with a NaN operand is false, `==` with a NaN operand
  is false (so `!=` is true), and `f32::max`/`f32::min` return the other
  argument when one argument is NaN.
* The transcendental channel primitives of `f32` that the source applies
  (`powf(2.4)`, `powf(1.0/2.4)`, `cbrt`, `sqrt`, `sin`, `cos`, `atan2`)
  have no exact rational counterpart.  They are abstracted as a bundle
  `FloatFns` of total functions on ℚ, lifted to `F` with the IEEE NaN
  propagation above; `to_radians`/`to_degrees` (multiplication by the
  irrational π/180 and its inverse) are folded into the neighbouring
  trigonometric primitive (`sin_deg`, `cos_deg`, `atan2_deg`).  Every
  theorem that does not depend on the value of a transcendental holds for
  every such bundle.
* Rust's `panic!` / `todo!` (a diverging call) is modelled by returning
  `none` from an `Option`-valued embedding of the fallible function.
-/

/-- A model f32: `none` is the NaN sentinel, `some q` a finite value. -/
abbrev F : Type := Option ℚ

/-- IEEE addition on the float model: NaN absorbs. -/
def fadd : F → F → F
  | some a, some b => some (a + b)
  | _, _ => none

/-- IEEE subtraction on the float model: NaN absorbs. -/
def fsub : F → F → F
  | some a, some b => some (a - b)
  | _, _ => none

/-- IEEE multiplication on the float model: NaN absorbs (also `0 * NaN`). -/
def fmul : F → F → F
  | some a, some b => some (a * b)
  | _, _ => none

/-- Division on the float model.  NaN absorbs; a division by zero has no
finite result and is mapped to the NaN element (the model carries no
infinities; no reachable code path of the claims divides a non-NaN value
by zero). -/
def fdiv : F → F → F
  | some a, some b => if b = 0 then none else some (a / b)
  | _, _ => none

/-- IEEE negation on the float model. -/
def fneg : F → F := Option.map (fun q => -q)

/-- `f32::abs`: NaN maps to NaN. -/
def fabs : F → F := Option.map (fun q => |q|)

/-- `f32::signum`: NaN maps to NaN, otherwise ±1.  (Rust maps `+0.0` to
`1.0` and `-0.0` to `-1.0`; the model has a single zero, mapped to `1`,
and the source only applies `signum` to values of magnitude ≥ 0.04045 or
> 0.0031308, never to a zero.) -/
def fsignum : F → F
  | some a => some (if 0 ≤ a then 1 else -1)
  | none => none

/-- The `<` comparison of f32: false whenever an operand is NaN. -/
def flt : F → F → Bool
  | some a, some b => decide (a < b)
  | _, _ => false

/-- The `<=` comparison of f32: false whenever an operand is NaN. -/
def fle : F → F → Bool
  | some a, some b => decide (a ≤ b)
  | _, _ => false

/-- The `>` comparison of f32. -/
def fgt (a b : F) : Bool := flt b a

/-- The `==` comparison of f32: false whenever an operand is NaN. -/
def feq : F → F → Bool
  | some a, some b => decide (a = b)
  | _, _ => false

/-- The `!=` comparison of f32: true whenever an operand is NaN. -/
def fne (a b : F) : Bool := !(feq a b)

/-- `f32::max`: when one argument is NaN the other argument is returned. -/
def fmax : F → F → F
  | some a, some b => some (max a b)
  | none, b => b
  | a, none => a

/-- `f32::min`: when one argument is NaN the other argument is returned. -/
def fmin : F → F → F
  | some a, some b => some (min a b)
  | none, b => b
  | a, none => a

/-- `f32::rem_euclid`: for a positive finite divisor `b` the result is the
representative of `a` modulo `b` in `[0, b)`; NaN operands (and the
unreachable zero divisor) yield NaN. -/
def frem_euclid : F → F → F
  | some a, some b => if b = 0 then none else some (a - b * (⌊a / b⌋ : ℤ))
  | _, _ => none

/-- The transcendental f32 primitives the conversion code applies, as an
abstract bundle of total functions on ℚ (see the module comment).
`powf24`/`powf_inv24` stand for `x.powf(2.4)` and `x.powf(1.0 / 2.4)`;
`sin_deg x`/`cos_deg x` stand for `x.to_radians().sin()` and
`x.to_radians().cos()`; `atan2_deg y x` stands for
`y.atan2(x).to_degrees()`. -/
structure FloatFns where
  powf24 : ℚ → ℚ
  powf_inv24 : ℚ → ℚ
  cbrt : ℚ → ℚ
  sqrt : ℚ → ℚ
  sin_deg : ℚ → ℚ
  cos_deg : ℚ → ℚ
  atan2_deg : ℚ → ℚ → ℚ

/-- Lift a unary ℚ primitive to the float model (NaN in, NaN out, as for
every Rust f32 transcendental). -/
def fapp1 (f : ℚ → ℚ) : F → F := Option.map f

/-- Lift `atan2_deg` to the float model (NaN in, NaN out). -/
def fatan2_deg (fns : FloatFns) : F → F → F
  | some y, some x => some (fns.atan2_deg y x)
  | _, _ => none

/-- A concrete transcendental bundle (all primitives constantly zero),
used to evaluate the engine at concrete inputs in statements whose truth
does not depend on the transcendental values. -/
def zeroFns : FloatFns :=
  { powf24 := fun _ => 0
    powf_inv24 := fun _ => 0
    cbrt := fun _ => 0
    sqrt := fun _ => 0
    sin_deg := fun _ => 0
    cos_deg := fun _ => 0
    atan2_deg := fun _ _ => 0 }

/-- `ColorSpace` (src/color.rs:5-21): the closed enumeration of supported
spaces. -/
inductive ColorSpace where
  | Srgb
  | Hsl
  | Hwb
  | Lab
  | Lch
  | Oklab
  | Oklch
  | SrgbLinear
  | DisplayP3
  | A98Rgb
  | ProphotoRgb
  | Rec2020
  | XyzD50
  | XyzD65
deriving DecidableEq, Repr

/-- `ColorFlags` (src/color.rs:44-52): the four independent
component-unspecified bits of the bitflags u8. -/
structure ColorFlags where
  c0_is_none : Bool
  c1_is_none : Bool
  c2_is_none : Bool
  alpha_is_none : Bool
deriving DecidableEq, Repr

/-- `ColorFlags::empty()`: no bit set. -/
def ColorFlags.empty : ColorFlags := ⟨false, false, false, false⟩

/-- `Components` (src/color.rs:54): the `[f32; 3]` component triple. -/
abbrev Components : Type := F × F × F

/-- `Color` (src/color.rs:56-63). -/
structure Color where
  components : Components
  flags : ColorFlags
  color_space : ColorSpace
  alpha : F
deriving DecidableEq, Repr

/-- `ComponentDetails` (src/color.rs:67-70). -/
structure ComponentDetails where
  value : F
  is_none : Bool

/-- `impl From<f32> for ComponentDetails` (src/color.rs:72-79): a plain
float is a specified component. -/
def ComponentDetails.of_float (value : F) : ComponentDetails :=
  { value := value, is_none := false }

/-- `impl From<Option<f32>> for ComponentDetails` (src/color.rs:90-104):
`None` stores 0.0 and records the component as unspecified. -/
def ComponentDetails.of_opt : Option F → ComponentDetails
  | some value => { value := value, is_none := false }
  | none => { value := some 0, is_none := true }

/-- `Color::new` (src/color.rs:107-137): assemble a color, deriving the
flag bits from the `is_none` marks of the four component details. -/
def Color.new (color_space : ColorSpace) (c0 c1 c2 alpha : ComponentDetails) :
    Color :=
  { components := (c0.value, c1.value, c2.value)
    flags :=
      { c0_is_none := c0.is_none
        c1_is_none := c1.is_none
        c2_is_none := c2.is_none
        alpha_is_none := alpha.is_none }
    color_space := color_space
    alpha := alpha.value }

namespace util

/-- `util::normalize_hue` (convert.rs:418-420): normalize hue into
[0, 360) via `rem_euclid(360.0)`. -/
def normalize_hue (hue : F) : F := frem_euclid hue (some 360)

/-- `util::rgb_to_hue_min_max` (convert.rs:424-443): the hue from RGB
components, returned along with the min and max RGB values; hue is the
NaN sentinel when `max - min == 0`. -/
def rgb_to_hue_min_max (red green blue : F) : F × F × F :=
  let max := fmax (fmax red green) blue
  let min := fmin (fmin red green) blue
  let delta := fsub max min
  let hue :=
    if fne delta (some 0) then
      fmul (some 60)
        (if feq max red then
          fadd (fdiv (fsub green blue) delta)
            (if flt green blue then some 6 else some 0)
        else if feq max green then
          fadd (fdiv (fsub blue red) delta) (some 2)
        else
          fadd (fdiv (fsub red green) delta) (some 4))
    else
      none
  (hue, min, max)

/-- `util::rgb_to_hsl` (convert.rs:447-466). -/
def rgb_to_hsl (co : Components) : Components :=
  let (red, green, blue) := co
  let hmm := rgb_to_hue_min_max red green blue
  let hue := hmm.1
  let min := hmm.2.1
  let max := hmm.2.2
  let lightness := fdiv (fadd min max) (some 2)
  let delta := fsub max min
  let saturation :=
    if fne delta (some 0) then
      if feq lightness (some 0) || feq lightness (some 1) then some 0
      else fdiv (fsub max lightness) (fmin lightness (fsub (some 1) lightness))
    else
      some 0
  (hue, saturation, lightness)

/-- The inner `hue_to_rgb` of `util::hsl_to_rgb` (convert.rs:471-483). -/
def hue_to_rgb (t1 t2 hue : F) : F :=
  let hue := normalize_hue hue
  if flt (fmul hue (some 6)) (some 360) then
    fadd t1 (fdiv (fmul (fsub t2 t1) hue) (some 60))
  else if flt (fmul hue (some 2)) (some 360) then
    t2
  else if flt (fmul hue (some 3)) (some 720) then
    fadd t1 (fdiv (fmul (fsub t2 t1) (fsub (some 240) hue)) (some 60))
  else
    t1

/-- `util::hsl_to_rgb` (convert.rs:470-499). -/
def hsl_to_rgb (co : Components) : Components :=
  let (hue, saturation, lightness) := co
  let t2 :=
    if fle lightness (some 0.5) then
      fmul lightness (fadd saturation (some 1))
    else
      fsub (fadd lightness saturation) (fmul lightness saturation)
  let t1 := fsub (fmul lightness (some 2)) t2
  (hue_to_rgb t1 t2 (fadd hue (some 120)),
   hue_to_rgb t1 t2 hue,
   hue_to_rgb t1 t2 (fsub hue (some 120)))

/-- `util::rgb_to_hwb` (convert.rs:503-512). -/
def rgb_to_hwb (co : Components) : Components :=
  let (red, green, blue) := co
  let hmm := rgb_to_hue_min_max red green blue
  let hue := hmm.1
  let min := hmm.2.1
  let max := hmm.2.2
  let whiteness := min
  let blackness := fsub (some 1) max
  (hue, whiteness, blackness)

/-- `util::hwb_to_rgb` (convert.rs:516-526). -/
def hwb_to_rgb (co : Components) : Components :=
  let (hue, whiteness, blackness) := co
  if fgt (fadd whiteness blackness) (some 1) then
    let gray := fdiv whiteness (fadd whiteness blackness)
    (gray, gray, gray)
  else
    let x := fsub (fsub (some 1) whiteness) blackness
    let rgb := hsl_to_rgb (hue, some 1, some 0.5)
    (fadd (fmul rgb.1 x) whiteness,
     fadd (fmul rgb.2.1 x) whiteness,
     fadd (fmul rgb.2.2 x) whiteness)

/-- `util::polar_to_orthogonal` (convert.rs:531-539): (ok)lch to (ok)lab. -/
def polar_to_orthogonal (fns : FloatFns) (co : Components) : Components :=
  let (lightness, chroma, hue) := co
  let a := fmul chroma (fapp1 fns.cos_deg hue)
  let b := fmul chroma (fapp1 fns.sin_deg hue)
  (lightness, a, b)

/-- `util::orthogonal_to_polar` (convert.rs:544-551): (ok)lab to (ok)lch;
the produced hue is `atan2` in degrees, normalized by `rem_euclid(360.0)`. -/
def orthogonal_to_polar (fns : FloatFns) (co : Components) : Components :=
  let (lightness, a, b) := co
  let hue := frem_euclid (fatan2_deg fns b a) (some 360)
  let chroma := fapp1 fns.sqrt (fadd (fmul a a) (fmul b b))
  (lightness, chroma, hue)

end util

/-- `Srgb = Rgb<tag::Srgb, tag::GammaEncoded>` (src/model/rgb.rs:36-70):
the gamma-encoded sRGB view; the two phantom tags are compile-time only
and carry no data. -/
structure Srgb where
  red : F
  green : F
  blue : F
  flags : ColorFlags
deriving DecidableEq, Repr

/-- `SrgbLinear = Rgb<tag::Srgb, tag::LinearLight>` (src/model/rgb.rs:72). -/
structure SrgbLinear where
  red : F
  green : F
  blue : F
  flags : ColorFlags
deriving DecidableEq, Repr

/-- `Hsl` (src/model/hsl.rs:5-11). -/
structure Hsl where
  hue : F
  saturation : F
  lightness : F
  flags : ColorFlags
deriving DecidableEq, Repr

/-- `Hwb` (src/model/hwb.rs:5-11). -/
structure Hwb where
  hue : F
  whiteness : F
  blackness : F
  flags : ColorFlags
deriving DecidableEq, Repr

/-- `Lab` (src/model/lab_lch.rs:4-10). -/
structure Lab where
  lightness : F
  a : F
  b : F
  flags : ColorFlags
deriving DecidableEq, Repr

/-- `Lch` (src/model/lab_lch.rs:36-42). -/
structure Lch where
  lightness : F
  chroma : F
  hue : F
  flags : ColorFlags
deriving DecidableEq, Repr

/-- `XyzD50 = Xyz<D50>` (src/model/xyz.rs:20-35): the phantom white-point
tag carries no data. -/
structure XyzD50 where
  x : F
  y : F
  z : F
  flags : ColorFlags
deriving DecidableEq, Repr

/-- `XyzD65 = Xyz<D65>` (src/model/xyz.rs:46). -/
structure XyzD65 where
  x : F
  y : F
  z : F
  flags : ColorFlags
deriving DecidableEq, Repr

/-- `D50::WHITE_POINT` (src/model/xyz.rs:10-13). -/
def D50.WHITE_POINT : ℚ × ℚ × ℚ := (0.9642956764295677, 1.0, 0.8251046025104602)

/-- `D65::WHITE_POINT` (src/model/xyz.rs:15-18). -/
def D65.WHITE_POINT : ℚ × ℚ × ℚ := (0.9504559270516716, 1.0, 1.0890577507598784)

/-- `Color::as_model::<Srgb>` (src/color.rs:139-147): panics (modelled as
`none`) unless the color's space tag is `Srgb`; on a match, the zero-copy
reinterpretation exposes the three stored components and the flags under
the model's named fields. -/
def Color.as_model_srgb (c : Color) : Option Srgb :=
  if c.color_space = ColorSpace.Srgb then
    some ⟨c.components.1, c.components.2.1, c.components.2.2, c.flags⟩
  else
    none

/-- `Color::as_model::<SrgbLinear>` (src/color.rs:139-147). -/
def Color.as_model_srgb_linear (c : Color) : Option SrgbLinear :=
  if c.color_space = ColorSpace.SrgbLinear then
    some ⟨c.components.1, c.components.2.1, c.components.2.2, c.flags⟩
  else
    none

/-- `Color::as_model::<Hsl>` (src/color.rs:139-147). -/
def Color.as_model_hsl (c : Color) : Option Hsl :=
  if c.color_space = ColorSpace.Hsl then
    some ⟨c.components.1, c.components.2.1, c.components.2.2, c.flags⟩
  else
    none

/-- `Color::as_model::<Hwb>` (src/color.rs:139-147). -/
def Color.as_model_hwb (c : Color) : Option Hwb :=
  if c.color_space = ColorSpace.Hwb then
    some ⟨c.components.1, c.components.2.1, c.components.2.2, c.flags⟩
  else
    none

/-- `Color::as_model::<Lab>` (src/color.rs:139-147). -/
def Color.as_model_lab (c : Color) : Option Lab :=
  if c.color_space = ColorSpace.Lab then
    some ⟨c.components.1, c.components.2.1, c.components.2.2, c.flags⟩
  else
    none

/-- `Color::as_model::<Lch>` (src/color.rs:139-147). -/
def Color.as_model_lch (c : Color) : Option Lch :=
  if c.color_space = ColorSpace.Lch then
    some ⟨c.components.1, c.components.2.1, c.components.2.2, c.flags⟩
  else
    none

/-- `Color::as_model::<XyzD50>` (src/color.rs:139-147). -/
def Color.as_model_xyz_d50 (c : Color) : Option XyzD50 :=
  if c.color_space = ColorSpace.XyzD50 then
    some ⟨c.components.1, c.components.2.1, c.components.2.2, c.flags⟩
  else
    none

/-- `Color::as_model::<XyzD65>` (src/color.rs:139-147). -/
def Color.as_model_xyz_d65 (c : Color) : Option XyzD65 :=
  if c.color_space = ColorSpace.XyzD65 then
    some ⟨c.components.1, c.components.2.1, c.components.2.2, c.flags⟩
  else
    none

/-- `ColorSpaceModel::into_color` for `Srgb` (src/model/rgb.rs:58-70). -/
def Srgb.into_color (m : Srgb) (alpha : F) : Color :=
  ⟨(m.red, m.green, m.blue), m.flags, ColorSpace.Srgb, alpha⟩

/-- `ColorSpaceModel::into_color` for `SrgbLinear` (src/model/rgb.rs:72-88). -/
def SrgbLinear.into_color (m : SrgbLinear) (alpha : F) : Color :=
  ⟨(m.red, m.green, m.blue), m.flags, ColorSpace.SrgbLinear, alpha⟩

/-- `ColorSpaceModel::into_color` for `Hsl` (src/model/hsl.rs:24-35). -/
def Hsl.into_color (m : Hsl) (alpha : F) : Color :=
  ⟨(m.hue, m.saturation, m.lightness), m.flags, ColorSpace.Hsl, alpha⟩

/-- `ColorSpaceModel::into_color` for `Hwb` (src/model/hwb.rs:25-36). -/
def Hwb.into_color (m : Hwb) (alpha : F) : Color :=
  ⟨(m.hue, m.whiteness, m.blackness), m.flags, ColorSpace.Hwb, alpha⟩

/-- `ColorSpaceModel::into_color` for `Lab` (src/model/lab_lch.rs:23-34). -/
def Lab.into_color (m : Lab) (alpha : F) : Color :=
  ⟨(m.lightness, m.a, m.b), m.flags, ColorSpace.Lab, alpha⟩

/-- `ColorSpaceModel::into_color` for `Lch` (src/model/lab_lch.rs:55-66). -/
def Lch.into_color (m : Lch) (alpha : F) : Color :=
  ⟨(m.lightness, m.chroma, m.hue), m.flags, ColorSpace.Lch, alpha⟩

/-- `ColorSpaceModel::into_color` for `XyzD50` (src/model/xyz.rs:37-48). -/
def XyzD50.into_color (m : XyzD50) (alpha : F) : Color :=
  ⟨(m.x, m.y, m.z), m.flags, ColorSpace.XyzD50, alpha⟩

/-- `ColorSpaceModel::into_color` for `XyzD65` (src/model/xyz.rs:50-57). -/
def XyzD65.into_color (m : XyzD65) (alpha : F) : Color :=
  ⟨(m.x, m.y, m.z), m.flags, ColorSpace.XyzD65, alpha⟩

/-- The 3×3 part of `euclid::default::Transform3D<f32>` as the source
constants lay it out: `Transform::new(m11, m12, m13, _, m21, ...)`, four
entries per source line (the fourth column/row is the identity affine part
and never touches the color components). -/
structure Transform where
  m11 : ℚ
  m12 : ℚ
  m13 : ℚ
  m21 : ℚ
  m22 : ℚ
  m23 : ℚ
  m31 : ℚ
  m32 : ℚ
  m33 : ℚ

/-- `transform` (convert.rs:12-15): euclid's `transform_vector3d` treats
the components as a row vector, so output k is `Σ_i v_i * m_ik`. -/
def transform (v : Components) (mat : Transform) : Components :=
  (fadd (fadd (fmul v.1 (some mat.m11)) (fmul v.2.1 (some mat.m21)))
     (fmul v.2.2 (some mat.m31)),
   fadd (fadd (fmul v.1 (some mat.m12)) (fmul v.2.1 (some mat.m22)))
     (fmul v.2.2 (some mat.m32)),
   fadd (fadd (fmul v.1 (some mat.m13)) (fmul v.2.1 (some mat.m23)))
     (fmul v.2.2 (some mat.m33)))

/-- The per-channel sRGB gamma decode: the closure inside
`Srgb::to_linear_light` (convert.rs:134-141).  Linear branch when
`c.abs() < 0.04045`, else `c.signum() * ((abs + 0.055) / 1.055).powf(2.4)`. -/
def srgb_decode_channel (fns : FloatFns) (c : F) : F :=
  let abs := fabs c
  if flt abs (some 0.04045) then
    fdiv c (some 12.92)
  else
    fmul (fsignum c) (fapp1 fns.powf24 (fdiv (fadd abs (some 0.055)) (some 1.055)))

/-- `Srgb::to_linear_light` (convert.rs:132-153): the per-channel gamma
decode mapped over red, green, blue; flags pass through. -/
def Srgb.to_linear_light (fns : FloatFns) (m : Srgb) : SrgbLinear :=
  ⟨srgb_decode_channel fns m.red,
   srgb_decode_channel fns m.green,
   srgb_decode_channel fns m.blue,
   m.flags⟩

/-- `Srgb::to_hsl` (convert.rs:155-163). -/
def Srgb.to_hsl (m : Srgb) : Hsl :=
  let hsl := util.rgb_to_hsl (m.red, m.green, m.blue)
  ⟨hsl.1, hsl.2.1, hsl.2.2, m.flags⟩

/-- `Srgb::to_hwb` (convert.rs:165-173). -/
def Srgb.to_hwb (m : Srgb) : Hwb :=
  let hwb := util.rgb_to_hwb (m.red, m.green, m.blue)
  ⟨hwb.1, hwb.2.1, hwb.2.2, m.flags⟩

/-- The per-channel sRGB gamma encode: the closure inside
`SrgbLinear::to_gamma_encoded` (convert.rs:178-186).  Power branch when
`c.abs() > 0.0031308`, else `12.92 * c`. -/
def srgb_encode_channel (fns : FloatFns) (c : F) : F :=
  let abs := fabs c
  if fgt abs (some 0.0031308) then
    fmul (fsignum c)
      (fsub (fmul (some 1.055) (fapp1 fns.powf_inv24 abs)) (some 0.055))
  else
    fmul (some 12.92) c

/-- `SrgbLinear::to_gamma_encoded` (convert.rs:177-197). -/
def SrgbLinear.to_gamma_encoded (fns : FloatFns) (m : SrgbLinear) : Srgb :=
  ⟨srgb_encode_channel fns m.red,
   srgb_encode_channel fns m.green,
   srgb_encode_channel fns m.blue,
   m.flags⟩

/-- `SrgbLinear::to_xyz_d65` (convert.rs:199-218): the fixed sRGB-to-XYZ
matrix (IEC 61966-2-1 / CSS Color 4 reference values). -/
def SrgbLinear.to_xyz_d65 (m : SrgbLinear) : XyzD65 :=
  let TO_XYZ : Transform :=
    ⟨0.4123907992659595, 0.21263900587151036, 0.01933081871559185,
     0.35758433938387796, 0.7151686787677559, 0.11919477979462599,
     0.1804807884018343, 0.07219231536073371, 0.9505321522496606⟩
  let r := transform (m.red, m.green, m.blue) TO_XYZ
  ⟨r.1, r.2.1, r.2.2, m.flags⟩

/-- `Hsl::to_srgb` (convert.rs:221-234). -/
def Hsl.to_srgb (m : Hsl) : Srgb :=
  let rgb := util.hsl_to_rgb (m.hue, m.saturation, m.lightness)
  ⟨rgb.1, rgb.2.1, rgb.2.2, m.flags⟩

/-- `Hwb::to_srgb` (convert.rs:236-249). -/
def Hwb.to_srgb (m : Hwb) : Srgb :=
  let rgb := util.hwb_to_rgb (m.hue, m.whiteness, m.blackness)
  ⟨rgb.1, rgb.2.1, rgb.2.2, m.flags⟩

/-- `Lab::KAPPA` (convert.rs:252): 24389/27. -/
def Lab.KAPPA : ℚ := 24389.0 / 27.0

/-- `Lab::EPSILON` (convert.rs:253): 216/24389. -/
def Lab.EPSILON : ℚ := 216.0 / 24389.0

/-- `Lab::to_xyz_d50` (convert.rs:255-289): CIE 1976 inverse f-function
per axis (cube vs. linear branch), then scaling by the D50 white point;
flags pass through. -/
def Lab.to_xyz_d50 (m : Lab) : XyzD50 :=
  let f1 := fdiv (fadd m.lightness (some 16)) (some 116)
  let f0 := fadd f1 (fdiv m.a (some 500))
  let f2 := fsub f1 (fdiv m.b (some 200))
  let f0_cubed := fmul (fmul f0 f0) f0
  let x :=
    if fgt f0_cubed (some Lab.EPSILON) then f0_cubed
    else fdiv (fsub (fmul (some 116) f0) (some 16)) (some Lab.KAPPA)
  let y :=
    if fgt m.lightness (some (Lab.KAPPA * Lab.EPSILON)) then
      let v := fdiv (fadd m.lightness (some 16)) (some 116)
      fmul (fmul v v) v
    else
      fdiv m.lightness (some Lab.KAPPA)
  let f2_cubed := fmul (fmul f2 f2) f2
  let z :=
    if fgt f2_cubed (some Lab.EPSILON) then f2_cubed
    else fdiv (fsub (fmul (some 116) f2) (some 16)) (some Lab.KAPPA)
  ⟨fmul x (some D50.WHITE_POINT.1),
   fmul y (some D50.WHITE_POINT.2.1),
   fmul z (some D50.WHITE_POINT.2.2),
   m.flags⟩

/-- `Lab::to_lch` (convert.rs:291-299). -/
def Lab.to_lch (fns : FloatFns) (m : Lab) : Lch :=
  let lch := util.orthogonal_to_polar fns (m.lightness, m.a, m.b)
  ⟨lch.1, lch.2.1, lch.2.2, m.flags⟩

/-- `Lch::to_lab` (convert.rs:302-313). -/
def Lch.to_lab (fns : FloatFns) (m : Lch) : Lab :=
  let lab := util.polar_to_orthogonal fns (m.lightness, m.chroma, m.hue)
  ⟨lab.1, lab.2.1, lab.2.2, m.flags⟩

/-- `XyzD50::to_xyz_d65` (convert.rs:316-335): the fixed D50-to-D65
chromatic-adaptation matrix. -/
def XyzD50.to_xyz_d65 (m : XyzD50) : XyzD65 :=
  let MAT : Transform :=
    ⟨0.9554734527042182, -0.028369706963208136, 0.012314001688319899,
     -0.023098536874261423, 1.0099954580058226, -0.020507696433477912,
     0.0632593086610217, 0.021041398966943008, 1.3303659366080753⟩
  let r := transform (m.x, m.y, m.z) MAT
  ⟨r.1, r.2.1, r.2.2, m.flags⟩

/-- `XyzD50::to_lab` (convert.rs:337-366): normalize by the D50 white
point, apply the CIE f-function per axis (cube root vs. linear branch),
then assemble L, a, b; flags pass through. -/
def XyzD50.to_lab (fns : FloatFns) (m : XyzD50) : Lab :=
  let KAPPA : ℚ := 24389.0 / 27.0
  let EPSILON : ℚ := 216.0 / 24389.0
  let fof : F → F := fun v =>
    if fgt v (some EPSILON) then fapp1 fns.cbrt v
    else fdiv (fadd (fmul (some KAPPA) v) (some 16)) (some 116)
  let f0 := fof (fdiv m.x (some D50.WHITE_POINT.1))
  let f1 := fof (fdiv m.y (some D50.WHITE_POINT.2.1))
  let f2 := fof (fdiv m.z (some D50.WHITE_POINT.2.2))
  let lightness := fsub (fmul (some 116) f1) (some 16)
  let a := fmul (some 500) (fsub f0 f1)
  let b := fmul (some 200) (fsub f1 f2)
  ⟨lightness, a, b, m.flags⟩

/-- `XyzD65::to_srgb` (convert.rs:370-390): the fixed XYZ-to-linear-sRGB
matrix (inverse of the sRGB matrix). -/
def XyzD65.to_srgb (m : XyzD65) : SrgbLinear :=
  let FROM_XYZ : Transform :=
    ⟨3.2409699419045213, -0.9692436362808798, 0.05563007969699361,
     -1.5373831775700935, 1.8759675015077206, -0.20397695888897657,
     -0.4986107602930033, 0.04155505740717561, 1.0569715142428786⟩
  let r := transform (m.x, m.y, m.z) FROM_XYZ
  ⟨r.1, r.2.1, r.2.2, m.flags⟩

/-- `XyzD65::to_xyz_d50` (convert.rs:392-411): the fixed D65-to-D50
chromatic-adaptation (Bradford) matrix. -/
def XyzD65.to_xyz_d50 (m : XyzD65) : XyzD50 :=
  let MAT : Transform :=
    ⟨1.0479298208405488, 0.029627815688159344, -0.009243058152591178,
     0.022946793341019088, 0.990434484573249, 0.015055144896577895,
     -0.05019222954313557, -0.01707382502938514, 0.7518742899580008⟩
  let r := transform (m.x, m.y, m.z) MAT
  ⟨r.1, r.2.1, r.2.2, m.flags⟩

/-- `Color::to_color_space` (convert.rs:18-129).  The same-space case
returns a clone (convert.rs:21-23) and the direct-pair table returns a
color rebuilt by `Color::new` from plain floats (convert.rs:26-57; note
`impl From<f32>` marks every such component as specified, so the input's
flag bits are not carried over).  Every remaining pair takes the pivot
path (convert.rs:59-126), which assembles an `XyzD50` value and a
complete `_result: Color` — but the `_result` binding is discarded and
the function ends in the unconditional `todo!()` of convert.rs:128, a
panic; the six unimplemented source/target spaces (Oklab, Oklch,
DisplayP3, A98Rgb, ProphotoRgb, Rec2020) panic on `todo!()` inside the
chain as well.  A panic is modelled as `none`; the dead `_xyz`/`_result`
computation is kept below exactly as the source assembles it. -/
def Color.to_color_space (c : Color) (fns : FloatFns) (color_space : ColorSpace) :
    Option Color :=
  if c.color_space = color_space then
    some c
  else
    match c.color_space, color_space with
    | ColorSpace.Srgb, ColorSpace.Hsl =>
      let r := util.rgb_to_hsl c.components
      some (Color.new color_space (ComponentDetails.of_float r.1)
        (ComponentDetails.of_float r.2.1) (ComponentDetails.of_float r.2.2)
        (ComponentDetails.of_float c.alpha))
    | ColorSpace.Hsl, ColorSpace.Srgb =>
      let r := util.hsl_to_rgb c.components
      some (Color.new color_space (ComponentDetails.of_float r.1)
        (ComponentDetails.of_float r.2.1) (ComponentDetails.of_float r.2.2)
        (ComponentDetails.of_float c.alpha))
    | ColorSpace.Srgb, ColorSpace.Hwb =>
      let r := util.rgb_to_hwb c.components
      some (Color.new color_space (ComponentDetails.of_float r.1)
        (ComponentDetails.of_float r.2.1) (ComponentDetails.of_float r.2.2)
        (ComponentDetails.of_float c.alpha))
    | ColorSpace.Hwb, ColorSpace.Srgb =>
      let r := util.hwb_to_rgb c.components
      some (Color.new color_space (ComponentDetails.of_float r.1)
        (ComponentDetails.of_float r.2.1) (ComponentDetails.of_float r.2.2)
        (ComponentDetails.of_float c.alpha))
    | ColorSpace.Lch, ColorSpace.Lab | ColorSpace.Oklch, ColorSpace.Oklab =>
      let r := util.polar_to_orthogonal fns c.components
      some (Color.new color_space (ComponentDetails.of_float r.1)
        (ComponentDetails.of_float r.2.1) (ComponentDetails.of_float r.2.2)
        (ComponentDetails.of_float c.alpha))
    | ColorSpace.Lab, ColorSpace.Lch | ColorSpace.Oklab, ColorSpace.Oklch =>
      let r := util.orthogonal_to_polar fns c.components
      some (Color.new color_space (ComponentDetails.of_float r.1)
        (ComponentDetails.of_float r.2.1) (ComponentDetails.of_float r.2.2)
        (ComponentDetails.of_float c.alpha))
    | _, _ =>
      -- The pivot path.  `_xyz` is convert.rs:60-95, `_result` is
      -- convert.rs:97-126; both are computed and then thrown away by the
      -- unconditional `todo!()` of convert.rs:128.
      let _xyz : Option XyzD50 :=
        match c.color_space with
        | ColorSpace.Srgb =>
          (c.as_model_srgb).map (fun m =>
            ((Srgb.to_linear_light fns m).to_xyz_d65).to_xyz_d50)
        | ColorSpace.Hsl =>
          (c.as_model_hsl).map (fun m =>
            ((Srgb.to_linear_light fns m.to_srgb).to_xyz_d65).to_xyz_d50)
        | ColorSpace.Hwb =>
          (c.as_model_hwb).map (fun m =>
            ((Srgb.to_linear_light fns m.to_srgb).to_xyz_d65).to_xyz_d50)
        | ColorSpace.Lab => (c.as_model_lab).map Lab.to_xyz_d50
        | ColorSpace.Lch =>
          (c.as_model_lch).map (fun m => (Lch.to_lab fns m).to_xyz_d50)
        | ColorSpace.Oklab => none -- todo!()
        | ColorSpace.Oklch => none -- todo!()
        | ColorSpace.SrgbLinear =>
          (c.as_model_srgb_linear).map (fun m => (m.to_xyz_d65).to_xyz_d50)
        | ColorSpace.DisplayP3 => none -- todo!()
        | ColorSpace.A98Rgb => none -- todo!()
        | ColorSpace.ProphotoRgb => none -- todo!()
        | ColorSpace.Rec2020 => none -- todo!()
        | ColorSpace.XyzD50 =>
          some ⟨c.components.1, c.components.2.1, c.components.2.2, c.flags⟩
        | ColorSpace.XyzD65 => (c.as_model_xyz_d65).map XyzD65.to_xyz_d50
      let _result : Option Color :=
        _xyz.bind (fun xyz =>
          match color_space with
          | ColorSpace.Srgb =>
            some ((SrgbLinear.to_gamma_encoded fns
              ((xyz.to_xyz_d65).to_srgb)).into_color c.alpha)
          | ColorSpace.Hsl =>
            some (((SrgbLinear.to_gamma_encoded fns
              ((xyz.to_xyz_d65).to_srgb)).to_hsl).into_color c.alpha)
          | ColorSpace.Hwb =>
            some (((SrgbLinear.to_gamma_encoded fns
              ((xyz.to_xyz_d65).to_srgb)).to_hwb).into_color c.alpha)
          | ColorSpace.Lab => some ((XyzD50.to_lab fns xyz).into_color c.alpha)
          | ColorSpace.Lch =>
            some (((XyzD50.to_lab fns xyz).to_lch fns).into_color c.alpha)
          | ColorSpace.Oklab => none -- todo!()
          | ColorSpace.Oklch => none -- todo!()
          | ColorSpace.SrgbLinear =>
            some (((xyz.to_xyz_d65).to_srgb).into_color c.alpha)
          | ColorSpace.DisplayP3 => none -- todo!()
          | ColorSpace.A98Rgb => none -- todo!()
          | ColorSpace.ProphotoRgb => none -- todo!()
          | ColorSpace.Rec2020 => none -- todo!()
          | ColorSpace.XyzD50 => some (xyz.into_color c.alpha)
          | ColorSpace.XyzD65 => some ((xyz.to_xyz_d65).into_color c.alpha))
      -- convert.rs:128: `todo!()` — the pivot path panics unconditionally.
      none

/-- The sRGB gamma-decode formula exactly as the spec sentence words it:
linear branch when `v < 12.92 * t` with `t = 0.04045`, comparing the
signed value `v` itself.  This is a refinement comparand written from the
spec's words, to be held against `srgb_decode_channel` (the code). -/
def spec_decode_channel (fns : FloatFns) (v : F) : F :=
  if flt v (some (12.92 * 0.04045)) then
    fdiv v (some 12.92)
  else
    fmul (fsignum v)
      (fapp1 fns.powf24 (fdiv (fadd (fabs v) (some 0.055)) (some 1.055)))

/-- The amended decode formula: linear branch when `|v| < t` with
`t = 0.04045` (equivalently `|v| < 12.92 * s` with `s = 0.0031308…`, the
encode-side threshold), else `sign(v) * ((|v| + 0.055) / 1.055)^2.4`. -/
def amended_decode_channel (fns : FloatFns) (v : F) : F :=
  if flt (fabs v) (some 0.04045) then
    fdiv v (some 12.92)
  else
    fmul (fsignum v)
      (fapp1 fns.powf24 (fdiv (fadd (fabs v) (some 0.055)) (some 1.055)))

/-- Whether a produced hue value lies in the half-open interval [0, 360);
the NaN sentinel does not. -/
def hue_in_range : F → Bool
  | some q => decide (0 ≤ q) && decide (q < 360)
  | none => false

/-- Whether a produced hue value lies in the closed interval [0, 360];
the NaN sentinel does not.  The closed bound is the one that transfers to
f32: the exact-rational model keeps the chromatic hue strictly below 360
and `rem_euclid` strictly below the modulus, but f32 round-to-nearest can
land exactly on 360.0 — `(g - b)/delta + 6.0` absorbs a quotient of tiny
magnitude into 6.0 (so `60.0 * 6.0 = 360.0`), and `rem_euclid(360.0)`
computes `r + 360.0` for tiny negative r, which rounds to 360.0.  Both
the program and the model satisfy the closed bound: every branch quotient
is correctly rounded within [-1, 1], so the branch sums stay within
[0, 6.0] and their products with 60.0 within [0, 360.0] by monotonicity
of round-to-nearest, and `r + 360.0` with r in (-360, 0) rounds to at
most 360.0. -/
def hue_in_closed_range : F → Bool
  | some q => decide (0 ≤ q) && decide (q ≤ 360)
  | none => false

/-- C3: same-space conversion returns the clone short-circuit of
convert.rs:21-23: the result is exactly the input color, bit for bit —
components, alpha, space tag and flags all unchanged (the input itself is
immutable in the model, as in the source, which takes `&self`). -/
theorem c3_same_space_conversion_is_identity (c : Color) (fns : FloatFns) :
    c.to_color_space fns c.color_space = some c := by
  unfold Color.to_color_space
  rw [if_pos rfl]

/-- C1 (code_bug record): `to_color_space` is not total.  Any pair outside
the direct table falls to the pivot path, which assembles its result and
then unconditionally executes the `todo!()` of convert.rs:128 — a panic,
modelled as `none`.  Here sRGB(0.5, 0.5, 0.5, alpha 1) → Lab, a pair the
claim requires to pivot through XYZ-D50 and complete, panics. -/
theorem c1_pivot_conversion_panics :
    (Color.new ColorSpace.Srgb (ComponentDetails.of_float (some 0.5))
      (ComponentDetails.of_float (some 0.5)) (ComponentDetails.of_float (some 0.5))
      (ComponentDetails.of_float (some 1))).to_color_space zeroFns ColorSpace.Lab =
      none := by
  decide

/-- C2 (code_bug record): a direct-pair conversion drops every flag bit.
The input sRGB color has all three component-unspecified bits set, but
the sRGB→HSL direct arm (convert.rs:27-30) rebuilds the result with
`Color::new` from plain `f32` values, whose `From<f32>` conversion marks
every component as specified — so the result's flags are empty, not the
still-set bits the claim requires. -/
theorem c2_direct_conversion_clears_flags :
    (Color.new ColorSpace.Srgb (ComponentDetails.of_opt none)
      (ComponentDetails.of_opt none) (ComponentDetails.of_opt none)
      (ComponentDetails.of_float (some 1))).flags =
      ⟨true, true, true, false⟩ ∧
    ((Color.new ColorSpace.Srgb (ComponentDetails.of_opt none)
      (ComponentDetails.of_opt none) (ComponentDetails.of_opt none)
      (ComponentDetails.of_float (some 1))).to_color_space zeroFns
        ColorSpace.Hsl).map Color.flags = some ColorFlags.empty := by
  decide

/-- C9: every primitive transform step of the pivot chain passes the
flags field through unchanged, for every transcendental bundle and every
input model value; the matrix steps (`to_xyz_d65`, `to_srgb`,
`to_xyz_d50`, `to_xyz_d65`) build their output from the transformed
3-vector and the untouched flags, and no model carries alpha at all —
alpha is reattached only by `into_color`. -/
theorem c9_primitive_transforms_preserve_flags (fns : FloatFns) (s : Srgb)
    (sl : SrgbLinear) (lab : Lab) (lch : Lch) (d50 : XyzD50) (d65 : XyzD65) :
    (Srgb.to_linear_light fns s).flags = s.flags ∧
    (SrgbLinear.to_gamma_encoded fns sl).flags = sl.flags ∧
    sl.to_xyz_d65.flags = sl.flags ∧
    d65.to_srgb.flags = d65.flags ∧
    d65.to_xyz_d50.flags = d65.flags ∧
    d50.to_xyz_d65.flags = d50.flags ∧
    (XyzD50.to_lab fns d50).flags = d50.flags ∧
    lab.to_xyz_d50.flags = lab.flags ∧
    (Lab.to_lch fns lab).flags = lab.flags ∧
    (Lch.to_lab fns lch).flags = lch.flags :=
  ⟨rfl, rfl, rfl, rfl, rfl, rfl, rfl, rfl, rfl, rfl⟩

/-- C4: the typed projection `as_model::<C>` panics (modelled `none`)
exactly when the color's space tag differs from `C::COLOR_SPACE`, for
each of the eight model types implementing `ColorSpaceModel`; whenever
the tags match it returns the view whose three named fields are the
color's three stored components and whose flags are the color's flags —
never a reinterpretation under a wrong tag. -/
theorem c4_as_model_panics_iff_space_mismatch (c : Color) :
    (c.as_model_srgb = none ↔ c.color_space ≠ ColorSpace.Srgb) ∧
    (∀ m, c.as_model_srgb = some m →
      m.red = c.components.1 ∧ m.green = c.components.2.1 ∧
      m.blue = c.components.2.2 ∧ m.flags = c.flags) ∧
    (c.as_model_srgb_linear = none ↔ c.color_space ≠ ColorSpace.SrgbLinear) ∧
    (∀ m, c.as_model_srgb_linear = some m →
      m.red = c.components.1 ∧ m.green = c.components.2.1 ∧
      m.blue = c.components.2.2 ∧ m.flags = c.flags) ∧
    (c.as_model_hsl = none ↔ c.color_space ≠ ColorSpace.Hsl) ∧
    (∀ m, c.as_model_hsl = some m →
      m.hue = c.components.1 ∧ m.saturation = c.components.2.1 ∧
      m.lightness = c.components.2.2 ∧ m.flags = c.flags) ∧
    (c.as_model_hwb = none ↔ c.color_space ≠ ColorSpace.Hwb) ∧
    (∀ m, c.as_model_hwb = some m →
      m.hue = c.components.1 ∧ m.whiteness = c.components.2.1 ∧
      m.blackness = c.components.2.2 ∧ m.flags = c.flags) ∧
    (c.as_model_lab = none ↔ c.color_space ≠ ColorSpace.Lab) ∧
    (∀ m, c.as_model_lab = some m →
      m.lightness = c.components.1 ∧ m.a = c.components.2.1 ∧
      m.b = c.components.2.2 ∧ m.flags = c.flags) ∧
    (c.as_model_lch = none ↔ c.color_space ≠ ColorSpace.Lch) ∧
    (∀ m, c.as_model_lch = some m →
      m.lightness = c.components.1 ∧ m.chroma = c.components.2.1 ∧
      m.hue = c.components.2.2 ∧ m.flags = c.flags) ∧
    (c.as_model_xyz_d50 = none ↔ c.color_space ≠ ColorSpace.XyzD50) ∧
    (∀ m, c.as_model_xyz_d50 = some m →
      m.x = c.components.1 ∧ m.y = c.components.2.1 ∧
      m.z = c.components.2.2 ∧ m.flags = c.flags) ∧
    (c.as_model_xyz_d65 = none ↔ c.color_space ≠ ColorSpace.XyzD65) ∧
    (∀ m, c.as_model_xyz_d65 = some m →
      m.x = c.components.1 ∧ m.y = c.components.2.1 ∧
      m.z = c.components.2.2 ∧ m.flags = c.flags) := by
  unfold Color.as_model_srgb Color.as_model_srgb_linear Color.as_model_hsl
    Color.as_model_hwb Color.as_model_lab Color.as_model_lch
    Color.as_model_xyz_d50 Color.as_model_xyz_d65
  refine ⟨?_, ?_, ?_, ?_, ?_, ?_, ?_, ?_, ?_, ?_, ?_, ?_, ?_, ?_, ?_, ?_⟩ <;>
    split_ifs with h <;>
    simp [h]

/-- C7: an achromatic RGB input (max component equal to min component,
so delta = 0) flows through the total functions `rgb_to_hsl` and
`rgb_to_hwb` without any fault and hits the `delta != 0.0` guard of
convert.rs:430/455: the hue is the `f32::NAN` sentinel and the HSL
saturation is exactly 0. -/
theorem c7_achromatic_rgb_gives_nan_hue_zero_saturation (r g b : ℚ)
    (h : max (max r g) b = min (min r g) b) :
    (util.rgb_to_hsl (some r, some g, some b)).1 = none ∧
    (util.rgb_to_hsl (some r, some g, some b)).2.1 = some 0 ∧
    (util.rgb_to_hwb (some r, some g, some b)).1 = none := by
  unfold util.rgb_to_hsl util.rgb_to_hwb util.rgb_to_hue_min_max
  simp [fmax, fmin, fsub, fne, feq, h]

/-- C7 witness: the achromatic gray r = g = b = 0.3. -/
theorem c7_witness :
    max (max (0.3 : ℚ) 0.3) 0.3 = min (min (0.3 : ℚ) 0.3) 0.3 ∧
    (util.rgb_to_hsl (some 0.3, some 0.3, some 0.3)).1 = none ∧
    (util.rgb_to_hsl (some 0.3, some 0.3, some 0.3)).2.1 = some 0 ∧
    (util.rgb_to_hwb (some 0.3, some 0.3, some 0.3)).1 = none := by
  have h := c7_achromatic_rgb_gives_nan_hue_zero_saturation 0.3 0.3 0.3 (by norm_num)
  exact ⟨by norm_num, h.1, h.2.1, h.2.2⟩

/-- C8: whenever whiteness + blackness > 1 the HWB→RGB conversion takes
the gray-collapse branch of convert.rs:519-522 and returns three equal
channels, each exactly whiteness / (whiteness + blackness) — for every
hue, including the NaN sentinel. -/
theorem c8_hwb_gray_collapse (hue : F) (w b : ℚ) (h : 1 < w + b) :
    util.hwb_to_rgb (hue, some w, some b) =
      (some (w / (w + b)), some (w / (w + b)), some (w / (w + b))) := by
  have hwb0 : w + b ≠ 0 := by intro h0; rw [h0] at h; norm_num at h
  unfold util.hwb_to_rgb
  simp [fadd, fgt, flt, fdiv, h, hwb0]

/-- C8 witness: whiteness = blackness = 0.6, with 0.6 + 0.6 > 1, collapses
to R = G = B = 0.5. -/
theorem c8_witness :
    (1 : ℚ) < 0.6 + 0.6 ∧
    util.hwb_to_rgb (some 0, some 0.6, some 0.6) =
      (some 0.5, some 0.5, some 0.5) := by
  have h := c8_hwb_gray_collapse (some 0) 0.6 0.6 (by norm_num)
  refine ⟨by norm_num, ?_⟩
  rw [h]
  norm_num

/-- Helper: `hue_to_rgb` with equal interpolation endpoints returns that
endpoint for every hue, including the NaN sentinel (whose three branch
comparisons are all false, falling through to `t1`). -/
theorem hue_to_rgb_of_eq_endpoints (t hue : F) : util.hue_to_rgb t t hue = t := by
  unfold util.hue_to_rgb
  cases hn : util.normalize_hue hue with
  | none =>
    simp [fmul, flt]
  | some x =>
    cases t with
    | none =>
      simp only [fadd, fdiv, fmul, fsub]
      split_ifs <;> rfl
    | some a =>
      simp only [fadd, fdiv, fmul, fsub, sub_self, zero_mul]
      split_ifs <;> simp_all

/-- C10: HSL→RGB with saturation exactly 0 returns red = green = blue =
lightness for every hue — including the NaN sentinel hue, whose three
normalized-branch comparisons in `hue_to_rgb` are all false — and for
every lightness (a NaN lightness propagates to all three channels
equally).  With saturation 0 both interpolation endpoints t1 and t2
collapse to the lightness, so the sentinel never poisons an achromatic
conversion. -/
theorem c10_hsl_to_rgb_zero_saturation (hue lightness : F) :
    util.hsl_to_rgb (hue, some 0, lightness) =
      (lightness, lightness, lightness) := by
  unfold util.hsl_to_rgb
  cases lightness with
  | none =>
    simp only [fle, fadd, fmul, fsub]
    simp [hue_to_rgb_of_eq_endpoints]
  | some L =>
    by_cases hL : L ≤ (0.5 : ℚ)
    · simp only [fle, fadd, fmul, fsub, decide_eq_true_eq, if_pos hL, zero_add,
        mul_one, mul_two, add_sub_cancel_right]
      simp [hue_to_rgb_of_eq_endpoints]
    · simp only [fle, fadd, fmul, fsub, decide_eq_true_eq, if_neg hL, add_zero,
        mul_zero, sub_zero, mul_two, add_sub_cancel_right]
      simp [hue_to_rgb_of_eq_endpoints]

/-- C5 counterexample: at channel value v = 0.1 the code
(`srgb_decode_channel`, convert.rs:134-141) takes the power branch, since
`|0.1| < 0.04045` is false, while the claim's reference formula
(`spec_decode_channel`, branch on `v < 12.92 * t` with t = 0.04045, i.e.
`v < 0.522614`) takes the linear branch and returns 0.1/12.92; the
results disagree (evaluated here at the concrete bundle `zeroFns`; the
branch disagreement itself holds for every bundle). -/
theorem c5_counterexample_branch_disagrees_at_tenth :
    spec_decode_channel zeroFns (some 0.1) = some (0.1 / 12.92) ∧
    srgb_decode_channel zeroFns (some 0.1) = some 0 ∧
    srgb_decode_channel zeroFns (some 0.1) ≠
      spec_decode_channel zeroFns (some 0.1) := by
  have h1 : spec_decode_channel zeroFns (some 0.1) = some (0.1 / 12.92) := by
    norm_num [spec_decode_channel, flt, fdiv]
  have h2 : srgb_decode_channel zeroFns (some 0.1) = some 0 := by
    norm_num [srgb_decode_channel, flt, fabs, fdiv, fadd, fmul, fsignum,
      fapp1, zeroFns, abs_of_nonneg]
  refine ⟨h1, h2, ?_⟩
  rw [h1, h2]
  intro heq
  rw [Option.some.injEq] at heq
  norm_num at heq

/-- C5 (amended): the sRGB gamma decode maps each channel v to v/12.92
when `|v| < t` with threshold t = 0.04045, and otherwise to
`sign(v) * ((|v| + 0.055) / 1.055)^2.4`; it is applied per channel by
`to_linear_light` (flags untouched), and it is sign-preserving: decoding
`-v` yields the negation of decoding `v`, for every channel value and
every power-function bundle. -/
theorem c5_gamma_decode_per_channel_and_sign_preserving (fns : FloatFns)
    (m : Srgb) (v : F) :
    srgb_decode_channel fns v = amended_decode_channel fns v ∧
    Srgb.to_linear_light fns m =
      ⟨srgb_decode_channel fns m.red, srgb_decode_channel fns m.green,
       srgb_decode_channel fns m.blue, m.flags⟩ ∧
    srgb_decode_channel fns (fneg v) = fneg (srgb_decode_channel fns v) := by
  refine ⟨rfl, rfl, ?_⟩
  cases v with
  | none => rfl
  | some a =>
    have h1292 : ¬(12.92 : ℚ) = 0 := by norm_num
    have h1055 : ¬(1.055 : ℚ) = 0 := by norm_num
    unfold srgb_decode_channel
    by_cases h : |a| < (0.04045 : ℚ)
    · simp [fneg, fabs, flt, abs_neg, h, fdiv, h1292, neg_div]
    · rcases (by
        intro h0
        rw [h0] at h
        norm_num at h : a ≠ 0).lt_or_lt with hlt | hgt
      · have hp1 : (0 : ℚ) ≤ -a := by linarith
        have hp2 : ¬(0 : ℚ) ≤ a := by linarith
        simp [fneg, fabs, flt, abs_neg, h, fadd, fdiv, fmul, fsignum, fapp1,
          h1055, hp1, hp2, one_mul, neg_mul, neg_neg]
      · have hp1 : ¬(0 : ℚ) ≤ -a := by linarith
        have hp2 : (0 : ℚ) ≤ a := by linarith
        simp [fneg, fabs, flt, abs_neg, h, fadd, fdiv, fmul, fsignum, fapp1,
          h1055, hp1, hp2, one_mul, neg_mul, neg_neg]

/-- Helper: the exact representative `q - 360 * floor(q / 360)` of any
finite value lies in [0, 360).  This is a fact about the rounding-free
model only: the f32 `rem_euclid(360.0)` adds `360.0` back onto a tiny
negative truncated remainder and can round to exactly 360.0, so the
claim-level statement uses only the closed-bound consequence of this
lemma, which f32 satisfies as well. -/
theorem rem_euclid_360_bounds (q : ℚ) :
    0 ≤ q - 360 * (⌊q / 360⌋ : ℤ) ∧ q - 360 * (⌊q / 360⌋ : ℤ) < 360 := by
  have hfl : ((⌊q / 360⌋ : ℤ) : ℚ) ≤ q / 360 := Int.floor_le _
  have hlt : q / 360 < (⌊q / 360⌋ : ℤ) + 1 := Int.lt_floor_add_one _
  have h360 : (360 : ℚ) * (q / 360) = q := by ring
  constructor
  · have := mul_le_mul_of_nonneg_left hfl (by norm_num : (0 : ℚ) ≤ 360)
    rw [h360] at this
    linarith
  · have := mul_lt_mul_of_pos_left hlt (by norm_num : (0 : ℚ) < 360)
    rw [h360] at this
    linarith

/-- Helper: for a chromatic finite RGB triple (max strictly above min)
the hue computed by `rgb_to_hue_min_max` is a finite value in [0, 360]:
each branch quotient lies in [-1, 1], so the `max == red` branch lands in
[0, 60] or [300, 360], the `max == green` branch in [60, 180], and the
remaining branch in [180, 300].  In the exact model the red-branch
wraparound stays strictly below 360; the closed bound is stated because
it is the bound f32 rounding preserves (see `hue_in_closed_range`). -/
theorem rgb_to_hue_min_max_hue_in_closed_range (r g b : ℚ)
    (hne : max (max r g) b ≠ min (min r g) b) :
    hue_in_closed_range (util.rgb_to_hue_min_max (some r) (some g) (some b)).1 =
      true := by
  have hmr : min (min r g) b ≤ r := le_trans (min_le_left _ _) (min_le_left _ _)
  have hmg : min (min r g) b ≤ g := le_trans (min_le_left _ _) (min_le_right _ _)
  have hmb : min (min r g) b ≤ b := min_le_right _ _
  have hrM : r ≤ max (max r g) b := le_trans (le_max_left _ _) (le_max_left _ _)
  have hgM : g ≤ max (max r g) b := le_trans (le_max_right _ _) (le_max_left _ _)
  have hbM : b ≤ max (max r g) b := le_max_right _ _
  have hD : 0 < max (max r g) b - min (min r g) b :=
    sub_pos.mpr (lt_of_le_of_ne (le_trans hmb hbM) (Ne.symm hne))
  have hD0 : ¬(max (max r g) b - min (min r g) b = 0) := ne_of_gt hD
  unfold util.rgb_to_hue_min_max
  simp only [fmax, fmin, fsub, fne, feq, flt, fdiv, fadd, fmul,
    decide_eq_true_eq, hD0, decide_False, Bool.not_false, if_true, if_false,
    ite_true, ite_false]
  split_ifs with hMr hgb hMg
  · have hx1 : (-1 : ℚ) ≤ (g - b) / (max (max r g) b - min (min r g) b) :=
      (le_div_iff₀ hD).mpr (by linarith)
    have hx2 : (g - b) / (max (max r g) b - min (min r g) b) < 0 :=
      div_neg_of_neg_of_pos (by linarith) hD
    simp only [hue_in_closed_range, Bool.and_eq_true, decide_eq_true_eq]
    exact ⟨by linarith, by linarith⟩
  · have hx1 : (0 : ℚ) ≤ (g - b) / (max (max r g) b - min (min r g) b) :=
      div_nonneg (by linarith) (le_of_lt hD)
    have hx2 : (g - b) / (max (max r g) b - min (min r g) b) ≤ 1 :=
      (div_le_one hD).mpr (by linarith)
    simp only [hue_in_closed_range, Bool.and_eq_true, decide_eq_true_eq]
    exact ⟨by linarith, by linarith⟩
  · have hx1 : (-1 : ℚ) ≤ (b - r) / (max (max r g) b - min (min r g) b) :=
      (le_div_iff₀ hD).mpr (by linarith)
    have hx2 : (b - r) / (max (max r g) b - min (min r g) b) ≤ 1 :=
      (div_le_one hD).mpr (by linarith)
    simp only [hue_in_closed_range, Bool.and_eq_true, decide_eq_true_eq]
    exact ⟨by linarith, by linarith⟩
  · have hx1 : (-1 : ℚ) ≤ (r - g) / (max (max r g) b - min (min r g) b) :=
      (le_div_iff₀ hD).mpr (by linarith)
    have hx2 : (r - g) / (max (max r g) b - min (min r g) b) ≤ 1 :=
      (div_le_one hD).mpr (by linarith)
    simp only [hue_in_closed_range, Bool.and_eq_true, decide_eq_true_eq]
    exact ⟨by linarith, by linarith⟩

/-- C6 counterexample: the achromatic input RGB(0, 0, 0) — delta = 0 —
makes both RGB→HSL and RGB→HWB produce the NaN sentinel hue, which does
not lie in [0, 360); so the hue produced by a conversion is not in
[0, 360) for every input Color. -/
theorem c6_counterexample_achromatic_hue_outside_range :
    hue_in_range (util.rgb_to_hsl (some 0, some 0, some 0)).1 = false ∧
    hue_in_range (util.rgb_to_hwb (some 0, some 0, some 0)).1 = false := by
  constructor <;>
    norm_num [util.rgb_to_hsl, util.rgb_to_hwb, util.rgb_to_hue_min_max,
      fmax, fmin, fsub, fne, feq, fdiv, fadd, hue_in_range]

/-- C6 (amended): every hue produced by a conversion lies in the CLOSED
interval [0, 360] — not the half-open [0, 360) — except for the
achromatic case: for every chromatic finite RGB input (max component
strictly above min) the hue of RGB→HSL and of RGB→HWB lies in [0, 360],
achromatic RGB inputs yield the NaN sentinel instead, and the hue of
Lab→LCH / Oklab→Oklch (`orthogonal_to_polar`) lies in [0, 360] for every
finite (a, b) pair and every transcendental bundle.  The closed bound is
what the f32 program guarantees: `rgb_to_hsl` never normalizes its hue
and f32 rounding of `60.0 * ((g - b)/delta + 6.0)` can produce exactly
360.0 at the wraparound below red (e.g. (1.0, 0.5, 0.5 + 2^-24)), as can
`rem_euclid(360.0)` on a tiny negative angle; both stay within [0, 360]
because round-to-nearest is monotone and the exact branch values lie in
[0, 360] (see `hue_in_closed_range`). -/
theorem c6_produced_hue_in_closed_range :
    (∀ r g b : ℚ, max (max r g) b ≠ min (min r g) b →
      hue_in_closed_range (util.rgb_to_hsl (some r, some g, some b)).1 = true ∧
      hue_in_closed_range (util.rgb_to_hwb (some r, some g, some b)).1 = true) ∧
    (∀ (fns : FloatFns) (l a b : ℚ),
      hue_in_closed_range
        (util.orthogonal_to_polar fns (some l, some a, some b)).2.2 = true) := by
  constructor
  · intro r g b hne
    have h := rgb_to_hue_min_max_hue_in_closed_range r g b hne
    exact ⟨h, h⟩
  · intro fns l a b
    have hq := rem_euclid_360_bounds (fns.atan2_deg b a)
    simp only [util.orthogonal_to_polar, fatan2_deg, frem_euclid,
      hue_in_closed_range]
    norm_num [hq.1, le_of_lt hq.2]

/-- C6 witness: the chromatic input RGB(1, 0, 0) (pure red) has its HSL
hue in [0, 360]. -/
theorem c6_witness_pure_red :
    max (max (1 : ℚ) 0) 0 ≠ min (min (1 : ℚ) 0) 0 ∧
    hue_in_closed_range (util.rgb_to_hsl (some 1, some 0, some 0)).1 = true := by
  have h := c6_produced_hue_in_closed_range.1 1 0 0 (by norm_num)
  exact ⟨by norm_num, h.1⟩
